import Mathlib

/-!
Shallow embedding of the NVSBot conversation-orchestration core:
the `Bot` orchestrator (`src/core/Bot.ts`), the two prompt-service
backends (`OpenAIPromptService.ts`, `GeminiPromptService.ts`), the
history manager (`BotMessageHistory.ts`) and the in-memory state
store (`LocalStateService.ts`).

Asynchronous effects are modelled by explicit state passing and by
effect traces (lists of transport sends, history reads/writes, AI
calls).  The outcome of the underlying AI completion call is a
parameter of type `Except Unit _` (`.error` models a thrown
exception caught by the service's try/catch).  Dates produced by
`moment()`/`toLocaleDateString` are passed in as opaque strings.
-/

namespace NVSBot

/-! ### JavaScript string primitives used by the bot -/

/-- ASCII case folding of a character code, as performed by a
case-insensitive regex match on an ASCII pattern (`/help/i`). -/
def charFold (c : Char) : Nat :=
  if 65 ≤ c.toNat && c.toNat ≤ 90 then c.toNat + 32 else c.toNat

/-- Case-insensitive character comparison. -/
def charCI (a b : Char) : Bool := charFold a = charFold b

/-- `pat` is a case-insensitive prefix of `s`. -/
def listPrefixCI : List Char → List Char → Bool
  | [], _ => true
  | _ :: _, [] => false
  | a :: as, b :: bs => charCI a b && listPrefixCI as bs

/-- `pat` occurs case-insensitively somewhere in `s`:
JavaScript `s.match(/pat/i)` for a literal pattern. -/
def listContainsCI (pat : List Char) : List Char → Bool
  | [] => listPrefixCI pat []
  | c :: rest => listPrefixCI pat (c :: rest) || listContainsCI pat rest

/-- JavaScript `s.match(/pat/i) !== null` for a literal ASCII pattern. -/
def matchCI (s pat : String) : Bool := listContainsCI pat.data s.data

/-- Remove the first occurrence of `pat` from `s`:
JavaScript `s.replace(pat, "")` with a string pattern
(which replaces only the first occurrence). -/
def stripFirstOcc (pat : List Char) : List Char → List Char
  | [] => []
  | c :: rest =>
    if pat.isPrefixOf (c :: rest) then (c :: rest).drop pat.length
    else c :: stripFirstOcc pat rest

/-- JavaScript `String.prototype.trim`: drop whitespace at both ends. -/
def trimList (l : List Char) : List Char :=
  ((l.dropWhile Char.isWhitespace).reverse.dropWhile Char.isWhitespace).reverse

/-- `message.text.replace(command, "").trim()` from `Bot.getMessageInfo`. -/
def strippedText (command t : String) : String :=
  ⟨trimList (stripFirstOcc command.data t.data)⟩

/-- JavaScript string disjunction `a || b` (empty string is falsy). -/
def jsOrString (a b : String) : String := if a == "" then b else a

/-- JavaScript `String(x)` on a number-or-undefined value
(`String(userId)` where `userId : number | undefined`). -/
def jsStringOfOptInt : Option Int → String
  | some n => toString n
  | none => "undefined"

/-- Character class `[a-zA-Z0-9_-]` of the username allow-list regex. -/
def isUsernameChar (c : Char) : Bool :=
  ('a' ≤ c && c ≤ 'z') || ('A' ≤ c && c ≤ 'Z') ||
  ('0' ≤ c && c ≤ '9') || c = '_' || c = '-'

/-- `/^[a-zA-Z0-9_-]{1,64}$/.test(username)` from `Bot.respond`. -/
def isValidUsername (s : String) : Bool :=
  1 ≤ s.data.length && s.data.length ≤ 64 && s.data.all isUsernameChar

/-! ### Messages and transcripts -/

/-- Role of an OpenAI chat message. -/
inductive Role where
  | system
  | user
  | assistant
deriving DecidableEq

/-- `OpenAI.Chat.Completions.ChatCompletionMessageParam`, restricted to
the fields the program reads or writes.  `content` is `Option` because
the API may return non-string (null) content, which `getLastMessage`
guards against with a `typeof` check. -/
structure ChatMessage where
  role : Role
  content : Option String
  name : Option String
deriving DecidableEq

/-- Role of a Gemini chat message. -/
inductive GRole where
  | user
  | model
deriving DecidableEq

/-- `GeminiMessage` from `GeminiPromptService.ts`. -/
structure GeminiMessage where
  role : GRole
  parts : String
deriving DecidableEq

/-- The data the Gemini service hands to the external `ChatSession` it
creates: the system instruction passed to `getGenerativeModel` and the
history passed to `startChat` (the session object itself is an opaque
library value). -/
structure GeminiSession where
  systemInstruction : String
  history : List GeminiMessage
deriving DecidableEq

/-- The framing line both services push on an empty transcript:
`Інструкція для бота: ім\x27я користувача: ${username || "потрібно запитати"};
cьогодні ${dateToday}, ${dayToday}.` -/
def framingText (dateToday dayToday username : String) : String :=
  "Інструкція для бота: ім\x27я користувача: " ++
    (jsOrString username "потрібно запитати") ++
    "; cьогодні " ++ dateToday ++ ", " ++ dayToday ++ "."

/-! ### OpenAIPromptService -/

namespace OpenAIPromptService

/-- `OpenAIPromptService.makePrompt`.  `ai` is the outcome of
`openai.chat.completions.create` projected to `choices[0].message`
(`.error` models a thrown error handled by the catch block). -/
def makePrompt (systemPromptFunc : String → String)
    (dateToday dayToday username userInput : String)
    (messages : List ChatMessage) (ai : Except Unit ChatMessage) :
    List ChatMessage :=
  let messages :=
    if messages.length = 0 then
      messages ++
        [⟨Role.system, some (systemPromptFunc username), none⟩,
         ⟨Role.user, some (framingText dateToday dayToday username), none⟩]
    else messages
  let messages := messages ++ [⟨Role.user, some userInput, some username⟩]
  match ai with
  | Except.ok m => messages ++ [m]
  | Except.error _ => messages

/-- `OpenAIPromptService.getLastMessage`. -/
def getLastMessage (messages : List ChatMessage) : Option String :=
  match messages.getLast? with
  | none => none
  | some m => if m.role = Role.assistant then m.content else none

end OpenAIPromptService

/-! ### GeminiPromptService -/

namespace GeminiPromptService

/-- `Map.prototype.set` on the `chatSessions` map: replace the entry
with this key, or append a fresh one. -/
def setSession : List (String × GeminiSession) → String → GeminiSession →
    List (String × GeminiSession)
  | [], id, s => [(id, s)]
  | e :: rest, id, s =>
    if e.1 = id then (id, s) :: rest else e :: setSession rest id s

/-- `Map.prototype.get`. -/
def findSession (sessions : List (String × GeminiSession)) (id : String) :
    Option GeminiSession :=
  (sessions.find? (fun e => e.1 = id)).map (fun e => e.2)

/-- `GeminiPromptService.makePrompt`.  `sessions` is the `chatSessions`
map; `ai` is the outcome of `chat.sendMessage(userInput)` projected to
`response.text()`.  Returns the updated messages array and the updated
session map. -/
def makePrompt (systemPromptFunc : String → String)
    (dateToday dayToday username userInput : String)
    (messages : List GeminiMessage)
    (sessions : List (String × GeminiSession))
    (ai : Except Unit String) :
    List GeminiMessage × List (String × GeminiSession) :=
  let hasSession := (findSession sessions username).isSome
  let (messages, sessions) :=
    if !hasSession || messages.length = 0 then
      let si := systemPromptFunc username
      let messages :=
        if messages.length = 0 then
          messages ++
            [⟨GRole.user, framingText dateToday dayToday username⟩]
        else messages
      (messages, setSession sessions username ⟨si, messages⟩)
    else (messages, sessions)
  let messages := messages ++ [⟨GRole.user, userInput⟩]
  match ai with
  | Except.ok txt => (messages ++ [⟨GRole.model, txt⟩], sessions)
  | Except.error _ => (messages, sessions)

/-- `GeminiPromptService.getLastMessage`. -/
def getLastMessage (messages : List GeminiMessage) : Option String :=
  match messages.getLast? with
  | none => none
  | some m => if m.role = GRole.model then some m.parts else none

end GeminiPromptService

/-! ### LocalStateService -/

/-- One entry of `LocalState` from `LocalStateService.ts`. -/
structure LocalStateEntry where
  id : String
  messages : List ChatMessage
deriving DecidableEq

/-- `LocalState`: the in-memory store. -/
abbrev LocalState := List LocalStateEntry

namespace LocalStateService

/-- `LocalStateService.getItemById`. -/
def getItemById (st : LocalState) (id : String) : List ChatMessage :=
  match st.find? (fun e => e.id = id) with
  | some e => e.messages
  | none => []

/-- `LocalStateService.setItemById`: mutate the messages of the first
entry with this id, or push a fresh entry at the end. -/
def setItemById : LocalState → String → List ChatMessage → LocalState
  | [], id, update => [⟨id, update⟩]
  | e :: rest, id, update =>
    if e.id = id then ⟨id, update⟩ :: rest
    else e :: setItemById rest id update

end LocalStateService

/-! ### BotMessageHistory (the History Manager) -/

namespace BotMessageHistory

/-- `BotMessageHistory.getHistoryById`: the argument is the outcome of
the wrapped `stateService.getItemById` call (`.error` models a thrown
store-level exception).  The `Except` result type records whether an
exception propagates to the Manager's caller. -/
def getHistoryById (storeGet : Except ε (List ChatMessage)) :
    Except ε (List ChatMessage) :=
  match storeGet with
  | Except.ok h => Except.ok h
  | Except.error _ => Except.ok []

/-- `BotMessageHistory.setHistoryById`: the argument is the outcome of
the wrapped `stateService.setItemById` call. -/
def setHistoryById (storeSet : Except ε Unit) : Except ε Unit :=
  match storeSet with
  | Except.ok _ => Except.ok ()
  | Except.error _ => Except.ok ()

end BotMessageHistory

/-! ### The Bot orchestrator -/

/-- `TelegramBot.User` as used for the bot's own identity
(`botInfo.id`, `botInfo.username`). -/
structure TgBotUser where
  id : Int
  username : String
deriving DecidableEq

/-- `message.from`: the sender. -/
structure TgUser where
  id : Int
  username : Option String
  first_name : Option String
  is_bot : Bool
deriving DecidableEq

/-- An inbound `TelegramBot.Message`, restricted to the fields the bot
reads.  `replyToFromId` flattens `message.reply_to_message?.from?.id`;
`chatId` is `message.chat.id` (the chat object is always present on a
delivered message). -/
structure TgMessage where
  message_id : Int
  chatId : Int
  fromUser : Option TgUser
  text : Option String
  replyToFromId : Option Int
deriving DecidableEq

/-- `BotMessageInfo` from `Bot.ts`. -/
structure BotMessageInfo where
  messageId : Int
  username : String
  mention : String
  userId : Option Int
  text : String
  chatId : Int
  isBot : Bool
  isAllowedChat : Bool
  isTextMessage : Bool
deriving DecidableEq

/-- The `BotConfig` fields the message-processing path reads.  The
caller's end-of-conversation function returns an arbitrary value `ρ`;
`truthy` embeds JavaScript truthiness of that value (`!!x`). -/
structure BotCfg (ρ : Type) where
  allowedChats : List String
  command : String
  defaultResponse : String
  systemPromptFunc : String → String
  endOfConversationFn : String → ρ
  truthy : ρ → Bool

namespace Bot

/-- `Bot.getBotInfo`: returns the cached identity if present; otherwise
fetches `getMe` (here the parameter `me`), caches it, and — because the
function body has no `return` after the fetch — returns `undefined`.
Result: (returned value, new cache, number of `getMe` fetches). -/
def getBotInfo (cached : Option TgBotUser) (me : TgBotUser) :
    Option TgBotUser × Option TgBotUser × Nat :=
  match cached with
  | some b => (some b, some b, 0)
  | none => (none, some me, 1)

/-- `Bot.getMessageInfo`. -/
def getMessageInfo (allowedChats : List String) (command : String)
    (msg : TgMessage) : BotMessageInfo :=
  let chatId := msg.chatId
  let userId := msg.fromUser.map TgUser.id
  let isAllowedChat := allowedChats.contains (toString chatId)
  let text :=
    match msg.text with
    | some t => strippedText command t
    | none => ""
  let username :=
    jsOrString ((msg.fromUser.bind TgUser.username).getD "")
      ((msg.fromUser.bind TgUser.first_name).getD "")
  let isBot := (msg.fromUser.map TgUser.is_bot).getD false
  let mention := (if username == "" then "" else "@") ++ username
  let isTextMessage := msg.text.isSome
  ⟨msg.message_id, username, mention, userId, text, chatId, isBot,
    isAllowedChat, isTextMessage⟩

/-- `Bot.getValidMessageInfo`, parameterized by the bot identity value
its own `getBotInfo` call returned.  Note the strict equality
`message.reply_to_message?.from?.id === botInfo?.id` on
number-or-undefined values: both undefined compares equal. -/
def getValidMessageInfo (allowedChats : List String) (command : String)
    (botInfo : Option TgBotUser) (msg : TgMessage) :
    Option BotMessageInfo :=
  let info := getMessageInfo allowedChats command msg
  let isReplyToBot := msg.replyToFromId == botInfo.map TgBotUser.id
  let startsWithCommand :=
    match msg.text with
    | some t => command.data.isPrefixOf t.data
    | none => false
  let isAddressingBot :=
    info.isTextMessage && (isReplyToBot || startsWithCommand)
  let result :=
    (match info.userId with
     | some u => u != 0
     | none => false) &&
    info.text != "" && !info.isBot && info.isAllowedChat && isAddressingBot
  if result then some info else none

/-- The string `"@" ++ botInfo?.username` built by the template literal
in `processMessage` (an absent identity stringifies as "undefined"). -/
def botHandleString (botInfo : Option TgBotUser) : String :=
  "@" ++ (match botInfo with | some b => b.username | none => "undefined")

/-- The `isHelpNeeded` condition in `Bot.processMessage`. -/
def isHelpNeeded (botInfo : Option TgBotUser) (text : String) : Bool :=
  text == "" || matchCI text "help" || matchCI text "start" ||
  text == "" || text == botHandleString botInfo

/-- The username argument `Bot.respond` passes to
`promptService.makePrompt`: the display name when it passes the
allow-list regex, else `userId?.toString()` (validation guarantees
`userId` is present whenever `respond` runs). -/
def promptUsername (info : BotMessageInfo) : String :=
  if isValidUsername info.username then info.username
  else jsStringOfOptInt info.userId

/-- Effect trace and outcome of one `Bot.respond` call. -/
structure RespondResult (ρ : Type) where
  result : Option ρ
  hist : LocalState
  sends : List (Int × String)
  writes : List (String × List ChatMessage)
  reads : Nat
  aiCalls : Nat

/-- `Bot.respond`, instantiated with the OpenAI prompt service and the
history manager over the in-memory store (whose calls never throw, so
the manager's try/catch is the identity here).  `ai` is the outcome of
the underlying completion call. -/
def respond (cfg : BotCfg ρ) (dateToday dayToday : String)
    (ai : Except Unit ChatMessage) (hist : LocalState)
    (info : BotMessageInfo) : RespondResult ρ :=
  let key := jsStringOfOptInt info.userId
  let history := LocalStateService.getItemById hist key
  let newHistory :=
    OpenAIPromptService.makePrompt cfg.systemPromptFunc dateToday dayToday
      (promptUsername info) info.text history ai
  match OpenAIPromptService.getLastMessage newHistory with
  | none => ⟨none, hist, [], [], 1, 1⟩
  | some lastLLMMessage =>
    let endOfConversation := cfg.endOfConversationFn lastLLMMessage
    if cfg.truthy endOfConversation then
      ⟨some endOfConversation, hist, [], [], 1, 1⟩
    else
      ⟨none, LocalStateService.setItemById hist key newHistory,
        [(info.chatId, "🤖 " ++ lastLLMMessage)],
        [(key, newHistory)], 1, 1⟩

/-- Effect trace and outcome of `Bot.processMessage` minus the
bot-identity bookkeeping. -/
structure CoreResult (ρ : Type) where
  result : Option ρ
  callbacks : List ρ
  sends : List (Int × String)
  hist : LocalState
  writes : List (String × List ChatMessage)
  reads : Nat
  aiCalls : Nat

/-- The body of `Bot.processMessage` parameterized by the two values
its two `getBotInfo` invocations return: `biHelp` (line 387, used by
the help check) and `biValid` (inside `getValidMessageInfo`). -/
def processMessageCore (cfg : BotCfg ρ) (biHelp biValid : Option TgBotUser)
    (dateToday dayToday : String) (ai : Except Unit ChatMessage)
    (hist : LocalState) (msg : TgMessage) : CoreResult ρ :=
  match getValidMessageInfo cfg.allowedChats cfg.command biValid msg with
  | none => ⟨none, [], [], hist, [], 0, 0⟩
  | some info =>
    if isHelpNeeded biHelp info.text then
      ⟨none, [], [(info.chatId, cfg.defaultResponse)], hist, [], 0, 0⟩
    else
      let r := respond cfg dateToday dayToday ai hist info
      match r.result with
      | some v =>
        if cfg.truthy v then
          ⟨some v, [v], r.sends, r.hist, r.writes, r.reads, r.aiCalls⟩
        else ⟨none, [], r.sends, r.hist, r.writes, r.reads, r.aiCalls⟩
      | none => ⟨none, [], r.sends, r.hist, r.writes, r.reads, r.aiCalls⟩

/-- Mutable per-instance state of a `Bot`: the cached identity and the
in-memory history store. -/
structure BotState where
  botInfo : Option TgBotUser
  hist : LocalState

/-- Full effect trace and outcome of one `Bot.processMessage` call. -/
structure ProcessResult (ρ : Type) where
  result : Option ρ
  callbacks : List ρ
  sends : List (Int × String)
  hist : LocalState
  writes : List (String × List ChatMessage)
  reads : Nat
  aiCalls : Nat
  fetches : Nat
  botInfo : Option TgBotUser

/-- `Bot.processMessage`: first `getBotInfo` call (its value feeds the
help check), then `getValidMessageInfo` (which calls `getBotInfo`
again), then the help short-circuit, then `respond` and the result
callback. -/
def processMessage (cfg : BotCfg ρ) (me : TgBotUser) (st : BotState)
    (dateToday dayToday : String) (ai : Except Unit ChatMessage)
    (msg : TgMessage) : ProcessResult ρ :=
  let r1 := getBotInfo st.botInfo me
  let r2 := getBotInfo r1.2.1 me
  let core :=
    processMessageCore cfg r1.1 r2.1 dateToday dayToday ai st.hist msg
  ⟨core.result, core.callbacks, core.sends, core.hist, core.writes,
    core.reads, core.aiCalls, r1.2.2 + r2.2.2, r2.2.1⟩

end Bot

end NVSBot

namespace NVSBot

/-! ### Concrete fixtures used by witnesses and counterexamples

A bot configured with command "/chat", allow-listed chat "1", default
response "Hi!", a system-prompt generator prefixing "SP:", and an
end-of-conversation function that returns the (truthy) string "DONE"
exactly when the assistant text is "DONE" and the falsy empty string
otherwise. -/

def cfgW : BotCfg String :=
  { allowedChats := ["1"], command := "/chat", defaultResponse := "Hi!",
    systemPromptFunc := fun u => "SP:" ++ u,
    endOfConversationFn := fun s => if s = "DONE" then "DONE" else "",
    truthy := fun s => s != "" }

/-- The bot's own Telegram identity. -/
def meW : TgBotUser := ⟨99, "mybot"⟩

/-- A human sender in the allow-listed chat. -/
def aliceW : TgUser := ⟨7, some "alice", none, false⟩

/-- A validated conversational message. -/
def msgValidW : TgMessage := ⟨5, 1, some aliceW, some "/chat book a table", none⟩

/-- The message info `Bot.getMessageInfo` derives from `msgValidW`. -/
def infoValidW : BotMessageInfo :=
  ⟨5, "alice", "@alice", some 7, "book a table", 1, false, true, true⟩

/-- A message whose text is exactly the configured command. -/
def msgBareW : TgMessage := ⟨5, 1, some aliceW, some "/chat", none⟩

/-- A message replying to one of the bot's own messages, with no
command prefix. -/
def msgReplyW : TgMessage := ⟨5, 1, some aliceW, some "book a table", some 99⟩

/-- An ordinary conversational sentence containing "start". -/
def msgRestartW : TgMessage :=
  ⟨5, 1, some aliceW, some "/chat please restart the server", none⟩

/-- A successful completion outcome: an ordinary assistant reply. -/
def aiOkW : Except Unit ChatMessage :=
  Except.ok ⟨Role.assistant, some "ok then", none⟩

/-- A successful completion outcome whose text triggers the
end-of-conversation function of `cfgW`. -/
def mDoneW : ChatMessage := ⟨Role.assistant, some "DONE", none⟩

/-- A pre-existing stored transcript for conversation identity "7". -/
def histW : LocalState := [⟨"7", [⟨Role.user, some "earlier", some "alice"⟩]⟩]

/-- Message info whose display name fails the allow-list regex. -/
def infoBadNameW : BotMessageInfo :=
  ⟨5, "bad name!", "@bad name!", some 7, "book a table", 1, false, true, true⟩

/-- The same conversational message sent in a chat that is not on the
allow-list. -/
def msgOtherChatW : TgMessage :=
  ⟨5, 2, some aliceW, some "/chat book a table", none⟩

/-- The message info `Bot.getMessageInfo` derives from `msgRestartW`. -/
def infoRestartW : BotMessageInfo :=
  ⟨5, "alice", "@alice", some 7, "please restart the server", 1, false, true, true⟩

/-- A message whose text is the command suffixed with the bot's own
handle. -/
def msgHandleW : TgMessage := ⟨5, 1, some aliceW, some "/chat@mybot", none⟩

end NVSBot

namespace NVSBot

/-! ### Helper lemmas -/

/-- Unfolding `Bot.processMessage` through the two `getBotInfo` calls:
the help check sees the prior cache, validation sees the identity
cached after the first call (the fetched `me` on a fresh instance). -/
theorem processMessage_unfold {ρ : Type} (cfg : BotCfg ρ) (me : TgBotUser)
    (st : Bot.BotState) (d1 d2 : String) (ai : Except Unit ChatMessage)
    (msg : TgMessage) :
    Bot.processMessage cfg me st d1 d2 ai msg =
      (fun core =>
        ⟨core.result, core.callbacks, core.sends, core.hist, core.writes,
          core.reads, core.aiCalls,
          (match st.botInfo with | some _ => 0 | none => 1),
          some (st.botInfo.getD me)⟩)
      (Bot.processMessageCore cfg st.botInfo (some (st.botInfo.getD me))
        d1 d2 ai st.hist msg) := by
  cases st with
  | mk bi hist => cases bi <;> rfl

/-- Removing the first occurrence of a pattern from a string that
starts with that very pattern leaves exactly the rest. -/
theorem stripFirstOcc_append (p r : List Char) :
    stripFirstOcc p (p ++ r) = r := by
  cases h : p ++ r with
  | nil =>
    rcases List.append_eq_nil.mp h with ⟨hp, hr⟩
    simp [stripFirstOcc, hr]
  | cons c rest =>
    have hpre : p.isPrefixOf (c :: rest) = true := by
      rw [← h, List.isPrefixOf_iff_prefix]
      exact List.prefix_append p r
    have hdrop : (c :: rest).drop p.length = r := by
      rw [← h]; exact List.drop_left p r
    simp [stripFirstOcc, hpre, hdrop]

/-- `Map.get` after `Map.set` on the `chatSessions` map finds the
session just stored. -/
theorem findSession_setSession (sess : List (String × GeminiSession))
    (id : String) (s : GeminiSession) :
    GeminiPromptService.findSession
      (GeminiPromptService.setSession sess id s) id = some s := by
  induction sess with
  | nil => simp [GeminiPromptService.setSession, GeminiPromptService.findSession]
  | cons e rest ih =>
    by_cases h : e.1 = id
    · simp [GeminiPromptService.setSession, GeminiPromptService.findSession, h]
    · simp only [GeminiPromptService.setSession, GeminiPromptService.findSession,
        if_neg h] at ih ⊢
      simpa [List.find?, h] using ih

/-! ### C7: the History Manager swallows store failures -/

/-- C7: for every conversation id, `BotMessageHistory.getHistoryById`
returns the empty transcript (without throwing) when the underlying
store's `get` fails and returns the stored transcript when it
succeeds, and `setHistoryById` returns normally whatever the outcome
of the store's `set`; no store-level exception ever propagates to the
Manager's caller. -/
theorem historyManager_swallows_store_failures {ε : Type} :
    (∀ e : ε, BotMessageHistory.getHistoryById (Except.error e) = Except.ok []) ∧
    (∀ h : List ChatMessage,
      BotMessageHistory.getHistoryById (Except.ok h) =
        (Except.ok h : Except ε (List ChatMessage))) ∧
    (∀ r : Except ε Unit, BotMessageHistory.setHistoryById r = Except.ok ()) := by
  refine ⟨fun e => rfl, fun h => rfl, fun r => ?_⟩
  cases r <;> rfl

/-! ### C8: in-memory store round-trip -/

/-- C8: for the in-memory storage backend, `setItemById id T` followed
by `getItemById id` returns exactly `T`. -/
theorem localState_set_get_roundtrip (st : LocalState) (id : String)
    (T : List ChatMessage) :
    LocalStateService.getItemById (LocalStateService.setItemById st id T) id
      = T := by
  induction st with
  | nil => simp [LocalStateService.setItemById, LocalStateService.getItemById]
  | cons e rest ih =>
    by_cases h : e.id = id
    · simp [LocalStateService.setItemById, LocalStateService.getItemById, h]
    · simp only [LocalStateService.setItemById, if_neg h]
      simp only [LocalStateService.getItemById, List.find?] at ih ⊢
      simpa [h] using ih

end NVSBot

namespace NVSBot

/-- The last element of a nonempty list extended by one element. -/
theorem getLast?_cons_concat {α : Type} (a : α) (l : List α) (b : α) :
    (a :: (l ++ [b])).getLast? = some b := by
  rw [← List.cons_append]; exact List.getLast?_concat _

/-! ### C2: shape of the transcript returned by a failed `makePrompt` -/

/-- C2 (amended): when the underlying completion call fails, both
backends return a transcript whose last entry has role "user"; its
length is the input length plus one when the input transcript is
non-empty, but on an empty input transcript the OpenAI backend returns
3 entries (system + framing + user turn) and the Gemini backend
returns 2 entries (framing + user turn), not 1. -/
theorem makePrompt_failure_shape :
    (∀ (f : String → String) (d1 d2 un inp : String) (msgs : List ChatMessage),
      (OpenAIPromptService.makePrompt f d1 d2 un inp msgs (Except.error ())).length
          = (if msgs.length = 0 then 3 else msgs.length + 1) ∧
      (OpenAIPromptService.makePrompt f d1 d2 un inp msgs
          (Except.error ())).getLast?.map ChatMessage.role = some Role.user) ∧
    (∀ (f : String → String) (d1 d2 un inp : String) (msgs : List GeminiMessage)
        (sess : List (String × GeminiSession)),
      (GeminiPromptService.makePrompt f d1 d2 un inp msgs sess
          (Except.error ())).1.length
          = (if msgs.length = 0 then 2 else msgs.length + 1) ∧
      (GeminiPromptService.makePrompt f d1 d2 un inp msgs sess
          (Except.error ())).1.getLast?.map GeminiMessage.role
          = some GRole.user) := by
  constructor
  · intro f d1 d2 un inp msgs
    cases msgs with
    | nil => simp [OpenAIPromptService.makePrompt, List.getLast?_concat]
    | cons a as =>
      simp [OpenAIPromptService.makePrompt, getLast?_cons_concat]
  · intro f d1 d2 un inp msgs sess
    cases msgs with
    | nil => simp [GeminiPromptService.makePrompt, List.getLast?_concat]
    | cons a as =>
      by_cases h : (GeminiPromptService.findSession sess un).isSome
      · simp [GeminiPromptService.makePrompt, h, getLast?_cons_concat]
      · simp [GeminiPromptService.makePrompt, h, getLast?_cons_concat]

/-- C2 counterexample: on an empty input transcript, a failed OpenAI
`makePrompt` call returns a 3-entry transcript (system prompt, framing
line, user turn), not a transcript of length `input + 1 = 1`. -/
theorem makePrompt_failure_empty_transcript_counterexample :
    (OpenAIPromptService.makePrompt (fun u => "SP:" ++ u) "d" "day" "alice"
        "hi" [] (Except.error ())).length = 3 ∧
    (OpenAIPromptService.makePrompt (fun u => "SP:" ++ u) "d" "day" "alice"
        "hi" [] (Except.error ())).length ≠ ([] : List ChatMessage).length + 1 := by
  constructor <;> decide

end NVSBot

namespace NVSBot

/-! ### C4: where display-name validation happens -/

/-- C4 (amended): neither backend's `makePrompt` validates the display
name — the OpenAI variant passes the name it receives unchanged to the
system-prompt generator (first conjunct) and the Gemini variant does
the same for the system instruction of the chat session it creates
(second conjunct).  The allow-list validation
`^[a-zA-Z0-9_-]\x7b1,64\x7d$` with fallback to the user-id string is
performed upstream, in `Bot.respond`, before the configured backend is
invoked: the transcript it persists opens with the system prompt built
from `promptUsername info` (third conjunct). -/
theorem username_sanitization_location {ρ : Type} :
    (∀ (f : String → String) (d1 d2 un inp : String) (ai : Except Unit ChatMessage),
      (OpenAIPromptService.makePrompt f d1 d2 un inp [] ai).head?
        = some ⟨Role.system, some (f un), none⟩) ∧
    (∀ (f : String → String) (d1 d2 un inp : String)
        (sess : List (String × GeminiSession)) (ai : Except Unit String),
      GeminiPromptService.findSession
          (GeminiPromptService.makePrompt f d1 d2 un inp [] sess ai).2 un
        = some ⟨f un, [⟨GRole.user, framingText d1 d2 un⟩]⟩) ∧
    (∀ (cfg : BotCfg ρ) (d1 d2 : String) (hist : LocalState)
        (info : BotMessageInfo) (m : ChatMessage) (s : String),
      LocalStateService.getItemById hist (jsStringOfOptInt info.userId) = [] →
      m.role = Role.assistant → m.content = some s →
      cfg.truthy (cfg.endOfConversationFn s) = false →
      (Bot.respond cfg d1 d2 (Except.ok m) hist info).writes =
        [(jsStringOfOptInt info.userId,
          [⟨Role.system, some (cfg.systemPromptFunc (Bot.promptUsername info)), none⟩,
           ⟨Role.user, some (framingText d1 d2 (Bot.promptUsername info)), none⟩,
           ⟨Role.user, some info.text, some (Bot.promptUsername info)⟩, m])]) := by
  refine ⟨?_, ?_, ?_⟩
  · intro f d1 d2 un inp ai
    cases ai <;> simp [OpenAIPromptService.makePrompt]
  · intro f d1 d2 un inp sess ai
    cases ai <;> simp [GeminiPromptService.makePrompt, findSession_setSession]
  · intro cfg d1 d2 hist info m s hhist hm hc ht
    simp [Bot.respond, OpenAIPromptService.makePrompt,
      OpenAIPromptService.getLastMessage, hhist, hm, hc, ht,
      List.getLast?_concat, getLast?_cons_concat]

/-- C4 counterexample: the display name "bad name!" fails the
allow-list regex, yet the OpenAI backend's `makePrompt` builds the
system prompt from it as given — no validation, no anonymized
placeholder. -/
theorem openai_uses_raw_username_counterexample :
    isValidUsername "bad name!" = false ∧
    (OpenAIPromptService.makePrompt (fun u => "SP:" ++ u) "d" "day" "bad name!"
        "hi" [] (Except.error ())).head?
      = some ⟨Role.system, some "SP:bad name!", none⟩ := by
  constructor <;> decide

/-- Witness for C4 (amended): for the invalid display name "bad name!"
with user id 7, `Bot.respond` persists a transcript whose system
prompt is built from the fallback "7", not from the raw name. -/
theorem username_sanitization_witness :
    (Bot.respond cfgW "d" "day"
        (Except.ok ⟨Role.assistant, some "ok then", none⟩) [] infoBadNameW).writes =
      [("7", [⟨Role.system, some "SP:7", none⟩,
              ⟨Role.user, some (framingText "d" "day" "7"), none⟩,
              ⟨Role.user, some "book a table", some "7"⟩,
              ⟨Role.assistant, some "ok then", none⟩])] := by
  have h := username_sanitization_location.2.2 cfgW "d" "day" [] infoBadNameW
    ⟨Role.assistant, some "ok then", none⟩ "ok then" rfl rfl rfl (by decide)
  exact h

end NVSBot

namespace NVSBot

/-! ### Behavior of `Bot.respond` on the two completion outcomes -/

/-- When the completion returns an assistant message whose text makes the
end-of-conversation function truthy, `respond` returns that value and
performs no send and no history write. -/
theorem respond_ok_eoc {ρ : Type} (cfg : BotCfg ρ) (d1 d2 : String)
    (hist : LocalState) (info : BotMessageInfo) (m : ChatMessage) (s : String)
    (hm : m.role = Role.assistant) (hc : m.content = some s)
    (ht : cfg.truthy (cfg.endOfConversationFn s) = true) :
    Bot.respond cfg d1 d2 (Except.ok m) hist info =
      ⟨some (cfg.endOfConversationFn s), hist, [], [], 1, 1⟩ := by
  simp [Bot.respond, OpenAIPromptService.makePrompt,
    OpenAIPromptService.getLastMessage, hm, hc, ht, List.getLast?_concat]

/-- When the completion call fails, the transcript ends with the user
turn, `getLastMessage` finds no assistant message, and `respond`
terminates with no result, no send and no history write. -/
theorem respond_ai_failure {ρ : Type} (cfg : BotCfg ρ) (d1 d2 : String)
    (hist : LocalState) (info : BotMessageInfo) :
    Bot.respond cfg d1 d2 (Except.error ()) hist info =
      ⟨none, hist, [], [], 1, 1⟩ := by
  simp [Bot.respond, OpenAIPromptService.makePrompt,
    OpenAIPromptService.getLastMessage, List.getLast?_concat]

/-! ### C1: end-of-conversation turns are delivered and not persisted -/

/-- C1: for every validated non-help message whose completion yields an
assistant text on which the caller's end-of-conversation function is
truthy, `processMessage` returns exactly that value, invokes the result
callback with exactly that value, sends no reply, and persists nothing:
the store is unchanged and a subsequent `getItemById` for that
conversation identity returns the pre-conversation-closing
transcript. -/
theorem processMessage_end_of_conversation {ρ : Type} (cfg : BotCfg ρ)
    (me : TgBotUser) (st : Bot.BotState) (d1 d2 : String) (msg : TgMessage)
    (info : BotMessageInfo) (m : ChatMessage) (s : String)
    (hv : Bot.getValidMessageInfo cfg.allowedChats cfg.command
        (some (st.botInfo.getD me)) msg = some info)
    (hh : Bot.isHelpNeeded st.botInfo info.text = false)
    (hm : m.role = Role.assistant) (hc : m.content = some s)
    (ht : cfg.truthy (cfg.endOfConversationFn s) = true) :
    (Bot.processMessage cfg me st d1 d2 (Except.ok m) msg).result
        = some (cfg.endOfConversationFn s) ∧
    (Bot.processMessage cfg me st d1 d2 (Except.ok m) msg).callbacks
        = [cfg.endOfConversationFn s] ∧
    (Bot.processMessage cfg me st d1 d2 (Except.ok m) msg).sends = [] ∧
    (Bot.processMessage cfg me st d1 d2 (Except.ok m) msg).writes = [] ∧
    (Bot.processMessage cfg me st d1 d2 (Except.ok m) msg).hist = st.hist ∧
    LocalStateService.getItemById
        (Bot.processMessage cfg me st d1 d2 (Except.ok m) msg).hist
        (jsStringOfOptInt info.userId)
      = LocalStateService.getItemById st.hist (jsStringOfOptInt info.userId) := by
  rw [processMessage_unfold]
  simp [Bot.processMessageCore, hv, hh,
    respond_ok_eoc cfg d1 d2 st.hist info m s hm hc ht, ht]

/-- Witness for C1 at a concrete run: chat "1", user 7, message
"/chat book a table", assistant reply "DONE". -/
theorem processMessage_end_of_conversation_witness :
    (Bot.processMessage cfgW meW ⟨some meW, histW⟩ "d" "day"
        (Except.ok mDoneW) msgValidW).result
      = some (cfgW.endOfConversationFn "DONE") ∧
    (Bot.processMessage cfgW meW ⟨some meW, histW⟩ "d" "day"
        (Except.ok mDoneW) msgValidW).callbacks
      = [cfgW.endOfConversationFn "DONE"] ∧
    (Bot.processMessage cfgW meW ⟨some meW, histW⟩ "d" "day"
        (Except.ok mDoneW) msgValidW).sends = [] ∧
    (Bot.processMessage cfgW meW ⟨some meW, histW⟩ "d" "day"
        (Except.ok mDoneW) msgValidW).writes = [] ∧
    (Bot.processMessage cfgW meW ⟨some meW, histW⟩ "d" "day"
        (Except.ok mDoneW) msgValidW).hist = histW ∧
    LocalStateService.getItemById
        (Bot.processMessage cfgW meW ⟨some meW, histW⟩ "d" "day"
          (Except.ok mDoneW) msgValidW).hist
        (jsStringOfOptInt infoValidW.userId)
      = LocalStateService.getItemById histW (jsStringOfOptInt infoValidW.userId) :=
  processMessage_end_of_conversation cfgW meW ⟨some meW, histW⟩ "d" "day"
    msgValidW infoValidW mDoneW "DONE" (by decide) (by decide) rfl rfl (by decide)

/-! ### C5: failed completion terminates silently -/

/-- C5: for every validated non-help message whose completion call
fails (so the transcript's last entry is the user turn and
`getLastMessage` yields no assistant message), `processMessage`
terminates with no result, no callback, no reply sent, and no history
write. -/
theorem processMessage_prompt_failure_silent {ρ : Type} (cfg : BotCfg ρ)
    (me : TgBotUser) (st : Bot.BotState) (d1 d2 : String) (msg : TgMessage)
    (info : BotMessageInfo)
    (hv : Bot.getValidMessageInfo cfg.allowedChats cfg.command
        (some (st.botInfo.getD me)) msg = some info)
    (hh : Bot.isHelpNeeded st.botInfo info.text = false) :
    (Bot.processMessage cfg me st d1 d2 (Except.error ()) msg).result = none ∧
    (Bot.processMessage cfg me st d1 d2 (Except.error ()) msg).callbacks = [] ∧
    (Bot.processMessage cfg me st d1 d2 (Except.error ()) msg).sends = [] ∧
    (Bot.processMessage cfg me st d1 d2 (Except.error ()) msg).writes = [] ∧
    (Bot.processMessage cfg me st d1 d2 (Except.error ()) msg).hist = st.hist := by
  rw [processMessage_unfold]
  simp [Bot.processMessageCore, hv, hh, respond_ai_failure]

/-- Witness for C5 at a concrete run. -/
theorem processMessage_prompt_failure_witness :
    (Bot.processMessage cfgW meW ⟨some meW, histW⟩ "d" "day"
        (Except.error ()) msgValidW).result = none ∧
    (Bot.processMessage cfgW meW ⟨some meW, histW⟩ "d" "day"
        (Except.error ()) msgValidW).callbacks = [] ∧
    (Bot.processMessage cfgW meW ⟨some meW, histW⟩ "d" "day"
        (Except.error ()) msgValidW).sends = [] ∧
    (Bot.processMessage cfgW meW ⟨some meW, histW⟩ "d" "day"
        (Except.error ()) msgValidW).writes = [] ∧
    (Bot.processMessage cfgW meW ⟨some meW, histW⟩ "d" "day"
        (Except.error ()) msgValidW).hist = histW :=
  processMessage_prompt_failure_silent cfgW meW ⟨some meW, histW⟩ "d" "day"
    msgValidW infoValidW (by decide) (by decide)

/-! ### C6: disallowed chats touch nothing -/

/-- C6: for every inbound message whose chat id is not on the
allow-list, `processMessage` performs no history read, no history
write, and sends no reply. -/
theorem processMessage_disallowed_chat {ρ : Type} (cfg : BotCfg ρ)
    (me : TgBotUser) (st : Bot.BotState) (d1 d2 : String)
    (ai : Except Unit ChatMessage) (msg : TgMessage)
    (h : cfg.allowedChats.contains (toString msg.chatId) = false) :
    (Bot.processMessage cfg me st d1 d2 ai msg).reads = 0 ∧
    (Bot.processMessage cfg me st d1 d2 ai msg).writes = [] ∧
    (Bot.processMessage cfg me st d1 d2 ai msg).sends = [] := by
  rw [processMessage_unfold]
  have h' : ¬ toString msg.chatId ∈ cfg.allowedChats := by simpa using h
  have hv : Bot.getValidMessageInfo cfg.allowedChats cfg.command
      (some (st.botInfo.getD me)) msg = none := by
    simp [Bot.getValidMessageInfo, Bot.getMessageInfo, h']
  simp [Bot.processMessageCore, hv]

/-- Witness for C6: the same conversational message sent from chat "2",
which is not on the allow-list `["1"]`. -/
theorem processMessage_disallowed_chat_witness :
    (Bot.processMessage cfgW meW ⟨some meW, histW⟩ "d" "day" aiOkW
        msgOtherChatW).reads = 0 ∧
    (Bot.processMessage cfgW meW ⟨some meW, histW⟩ "d" "day" aiOkW
        msgOtherChatW).writes = [] ∧
    (Bot.processMessage cfgW meW ⟨some meW, histW⟩ "d" "day" aiOkW
        msgOtherChatW).sends = [] :=
  processMessage_disallowed_chat cfgW meW ⟨some meW, histW⟩ "d" "day" aiOkW
    msgOtherChatW (by decide)

/-! ### C9: the help short-circuit fires on substrings -/

/-- C9: for every validated message whose stripped text contains
"help" or "start" anywhere, case-insensitively — including ordinary
sentences containing those substrings — `processMessage` sends the
configured default response and makes no AI call, no history read and
no history write. -/
theorem help_substring_shortcircuit {ρ : Type} (cfg : BotCfg ρ)
    (me : TgBotUser) (st : Bot.BotState) (d1 d2 : String)
    (ai : Except Unit ChatMessage) (msg : TgMessage) (info : BotMessageInfo)
    (hv : Bot.getValidMessageInfo cfg.allowedChats cfg.command
        (some (st.botInfo.getD me)) msg = some info)
    (hh : matchCI info.text "help" = true ∨ matchCI info.text "start" = true) :
    (Bot.processMessage cfg me st d1 d2 ai msg).sends
        = [(info.chatId, cfg.defaultResponse)] ∧
    (Bot.processMessage cfg me st d1 d2 ai msg).aiCalls = 0 ∧
    (Bot.processMessage cfg me st d1 d2 ai msg).reads = 0 ∧
    (Bot.processMessage cfg me st d1 d2 ai msg).writes = [] ∧
    (Bot.processMessage cfg me st d1 d2 ai msg).result = none := by
  rw [processMessage_unfold]
  have hhelp : Bot.isHelpNeeded st.botInfo info.text = true := by
    rcases hh with h | h <;> simp [Bot.isHelpNeeded, h]
  simp [Bot.processMessageCore, hv, hhelp]

/-- Witness for C9: "/chat please restart the server" strips to an
ordinary sentence containing "start" and receives the default
response with no AI call and no history access. -/
theorem help_substring_shortcircuit_witness :
    (Bot.processMessage cfgW meW ⟨some meW, histW⟩ "d" "day" aiOkW
        msgRestartW).sends = [(infoRestartW.chatId, cfgW.defaultResponse)] ∧
    (Bot.processMessage cfgW meW ⟨some meW, histW⟩ "d" "day" aiOkW
        msgRestartW).aiCalls = 0 ∧
    (Bot.processMessage cfgW meW ⟨some meW, histW⟩ "d" "day" aiOkW
        msgRestartW).reads = 0 ∧
    (Bot.processMessage cfgW meW ⟨some meW, histW⟩ "d" "day" aiOkW
        msgRestartW).writes = [] ∧
    (Bot.processMessage cfgW meW ⟨some meW, histW⟩ "d" "day" aiOkW
        msgRestartW).result = none :=
  help_substring_shortcircuit cfgW meW ⟨some meW, histW⟩ "d" "day" aiOkW
    msgRestartW infoRestartW (by decide) (Or.inr (by decide))

end NVSBot

namespace NVSBot

/-! ### C3: bare command vs. command-plus-handle -/

/-- C3 (amended): a message whose text is exactly the configured
command strips to empty text and is therefore rejected by validation —
it is silently discarded with no response at all, no AI call and no
history read or write (first conjunct).  A message whose text is the
command suffixed with the bot's own handle (once the bot identity is
cached, with the usual validity conditions) does receive the
configured default response with no AI call and no history read or
write (second conjunct). -/
theorem bare_command_and_handle_behavior :
    (∀ (ρ : Type) (cfg : BotCfg ρ) (me : TgBotUser) (st : Bot.BotState)
        (d1 d2 : String) (ai : Except Unit ChatMessage) (msg : TgMessage),
      msg.text = some cfg.command →
      (Bot.processMessage cfg me st d1 d2 ai msg).sends = [] ∧
      (Bot.processMessage cfg me st d1 d2 ai msg).aiCalls = 0 ∧
      (Bot.processMessage cfg me st d1 d2 ai msg).reads = 0 ∧
      (Bot.processMessage cfg me st d1 d2 ai msg).writes = [] ∧
      (Bot.processMessage cfg me st d1 d2 ai msg).result = none) ∧
    (∀ (ρ : Type) (cfg : BotCfg ρ) (me b : TgBotUser) (hist : LocalState)
        (d1 d2 : String) (ai : Except Unit ChatMessage) (msg : TgMessage)
        (usr : TgUser),
      msg.text = some (cfg.command ++ "@" ++ b.username) →
      trimList ('@' :: b.username.data) = '@' :: b.username.data →
      msg.fromUser = some usr → usr.is_bot = false → usr.id ≠ 0 →
      cfg.allowedChats.contains (toString msg.chatId) = true →
      (Bot.processMessage cfg me ⟨some b, hist⟩ d1 d2 ai msg).sends
          = [(msg.chatId, cfg.defaultResponse)] ∧
      (Bot.processMessage cfg me ⟨some b, hist⟩ d1 d2 ai msg).aiCalls = 0 ∧
      (Bot.processMessage cfg me ⟨some b, hist⟩ d1 d2 ai msg).reads = 0 ∧
      (Bot.processMessage cfg me ⟨some b, hist⟩ d1 d2 ai msg).writes = []) := by
  constructor
  · intro ρ cfg me st d1 d2 ai msg htext
    rw [processMessage_unfold]
    have h1 : stripFirstOcc cfg.command.data cfg.command.data = [] := by
      have h2 := stripFirstOcc_append cfg.command.data []
      simpa using h2
    have hstrip : strippedText cfg.command cfg.command = "" := by
      simp [strippedText, h1, trimList]
    have hv : Bot.getValidMessageInfo cfg.allowedChats cfg.command
        (some (st.botInfo.getD me)) msg = none := by
      simp [Bot.getValidMessageInfo, Bot.getMessageInfo, htext, hstrip]
    simp [Bot.processMessageCore, hv]
  · intro ρ cfg me b hist d1 d2 ai msg usr htext htrim hfrom hbot hid hallow
    rw [processMessage_unfold]
    have hallow' : toString msg.chatId ∈ cfg.allowedChats := by
      simpa using hallow
    have hdata : (cfg.command ++ "@" ++ b.username).data
        = cfg.command.data ++ ("@" ++ b.username).data := by
      simp [String.data_append, List.append_assoc]
    have hstrip : strippedText cfg.command (cfg.command ++ "@" ++ b.username)
        = "@" ++ b.username := by
      apply String.ext
      simp [strippedText, hdata, stripFirstOcc_append, String.data_append, htrim]
    have hne : (("@" ++ b.username : String) != "") = true := by
      rw [bne_iff_ne]
      intro h
      have h' := congrArg String.data h
      simp [String.data_append] at h'
    have hpre : cfg.command.data.isPrefixOf
        (cfg.command ++ "@" ++ b.username).data = true := by
      rw [hdata, List.isPrefixOf_iff_prefix]
      exact List.prefix_append _ _
    have hv : Bot.getValidMessageInfo cfg.allowedChats cfg.command
        (some b) msg
        = some (Bot.getMessageInfo cfg.allowedChats cfg.command msg) := by
      simp [Bot.getValidMessageInfo, Bot.getMessageInfo, htext, hstrip, hne,
        hfrom, hbot, hid, hallow', hpre]
    have hinfo : (Bot.getMessageInfo cfg.allowedChats cfg.command msg).text
        = "@" ++ b.username := by
      simp [Bot.getMessageInfo, htext, hstrip]
    have hhelp : Bot.isHelpNeeded (some b)
        (Bot.getMessageInfo cfg.allowedChats cfg.command msg).text = true := by
      simp [Bot.isHelpNeeded, hinfo, Bot.botHandleString]
    have hchat : (Bot.getMessageInfo cfg.allowedChats cfg.command msg).chatId
        = msg.chatId := by
      simp [Bot.getMessageInfo]
    simp [Bot.processMessageCore, hv, hhelp, hchat]

/-- C3 counterexample: the message "/chat" (exactly the configured
command) is discarded as invalid — nothing at all is sent, in
particular not the configured default response. -/
theorem bare_command_counterexample :
    (Bot.processMessage cfgW meW ⟨some meW, histW⟩ "d" "day" aiOkW
        msgBareW).sends = [] ∧
    (Bot.processMessage cfgW meW ⟨some meW, histW⟩ "d" "day" aiOkW
        msgBareW).sends ≠ [(msgBareW.chatId, cfgW.defaultResponse)] := by
  constructor <;> decide

/-- Witness for C3 (amended): the bare command "/chat" is discarded
silently, while "/chat@mybot" receives the default response. -/
theorem bare_command_and_handle_witness :
    ((Bot.processMessage cfgW meW ⟨some meW, histW⟩ "d" "day" aiOkW
        msgBareW).sends = [] ∧
     (Bot.processMessage cfgW meW ⟨some meW, histW⟩ "d" "day" aiOkW
        msgBareW).aiCalls = 0 ∧
     (Bot.processMessage cfgW meW ⟨some meW, histW⟩ "d" "day" aiOkW
        msgBareW).reads = 0 ∧
     (Bot.processMessage cfgW meW ⟨some meW, histW⟩ "d" "day" aiOkW
        msgBareW).writes = [] ∧
     (Bot.processMessage cfgW meW ⟨some meW, histW⟩ "d" "day" aiOkW
        msgBareW).result = none) ∧
    ((Bot.processMessage cfgW meW ⟨some meW, histW⟩ "d" "day" aiOkW
        msgHandleW).sends = [(msgHandleW.chatId, cfgW.defaultResponse)] ∧
     (Bot.processMessage cfgW meW ⟨some meW, histW⟩ "d" "day" aiOkW
        msgHandleW).aiCalls = 0 ∧
     (Bot.processMessage cfgW meW ⟨some meW, histW⟩ "d" "day" aiOkW
        msgHandleW).reads = 0 ∧
     (Bot.processMessage cfgW meW ⟨some meW, histW⟩ "d" "day" aiOkW
        msgHandleW).writes = []) :=
  ⟨bare_command_and_handle_behavior.1 String cfgW meW ⟨some meW, histW⟩
      "d" "day" aiOkW msgBareW rfl,
   bare_command_and_handle_behavior.2 String cfgW meW meW histW
      "d" "day" aiOkW msgHandleW aliceW (by decide) (by decide) rfl rfl
      (by decide) (by decide)⟩

/-! ### C10: the bot-identity cache and its first-call behavior -/

/-- C10 (amended): `getBotInfo` fetches the transport identity at most
once per instance — the first invocation fetches and caches it but
returns the absent value, later invocations return the cached identity
without fetching (first two conjuncts).  Consequently, on the first
message processed by a fresh instance, `processMessage` performs
exactly one fetch and runs its body with the help-check identity
absent but the validation identity already cached (third conjunct):
because `processMessage` invokes `getBotInfo` before
`getValidMessageInfo` does, only the handle-suffix help check sees the
absent identity; the reply-chain addressing check sees the fetched
one. -/
theorem botInfo_cache_behavior :
    (∀ me : TgBotUser, Bot.getBotInfo none me = (none, some me, 1)) ∧
    (∀ me b : TgBotUser, Bot.getBotInfo (some b) me = (some b, some b, 0)) ∧
    (∀ (ρ : Type) (cfg : BotCfg ρ) (me : TgBotUser) (hist : LocalState)
        (d1 d2 : String) (ai : Except Unit ChatMessage) (msg : TgMessage),
      Bot.processMessage cfg me ⟨none, hist⟩ d1 d2 ai msg =
        (fun core => ⟨core.result, core.callbacks, core.sends, core.hist,
          core.writes, core.reads, core.aiCalls, 1, some me⟩)
        (Bot.processMessageCore cfg none (some me) d1 d2 ai hist msg)) :=
  ⟨fun _ => rfl, fun _ _ => rfl, fun _ _ _ _ _ _ _ _ => rfl⟩

/-- C10 counterexample: a first message that replies to the bot with no
command prefix.  Were the reply-chain addressing check evaluated
against an absent bot identity, validation would reject the message
(first conjunct) and no AI call would happen; the actual run makes the
AI call and sends the reply, because the check sees the identity
cached by `processMessage`'s own earlier `getBotInfo` invocation. -/
theorem botInfo_first_message_counterexample :
    Bot.getValidMessageInfo cfgW.allowedChats cfgW.command none msgReplyW
        = none ∧
    (Bot.processMessage cfgW meW ⟨none, []⟩ "d" "day" aiOkW
        msgReplyW).aiCalls = 1 ∧
    (Bot.processMessage cfgW meW ⟨none, []⟩ "d" "day" aiOkW
        msgReplyW).sends = [(1, "🤖 ok then")] := by
  refine ⟨by decide, by decide, by decide⟩

end NVSBot
